import Mathlib

/-!
Verification of the resilient realtime channel of `apps/web/hooks/useWebSocket.ts`
(the `useWebSocket` hook of the Lamp-Code web client): connection lifecycle,
heartbeat-based liveness detection, exponential-backoff reconnection, and typed
message dispatch to the registered application handlers.

The hook's mutable refs and React state are embedded as the `Ctrl` structure;
each event callback of the hook (`connect`, `disconnect`, `ws.onopen`,
`ws.onmessage`, `ws.onerror`, `ws.onclose`, the heartbeat `setInterval`
callback, and the reconnect `setTimeout` callback) is a pure function from
`Ctrl` to `Ctrl` together with the list of externally observable effects it
performs.  Timestamps (`Date.now()`) are naturals counting milliseconds.
-/

namespace LampCode

/-- JavaScript values as they appear after `JSON.parse`, extended with `undef`
for the JavaScript `undefined` produced by missing-property access. -/
inductive Json where
  | undef
  | null
  | bool (b : Bool)
  | num (n : Int)
  | str (s : String)
  | obj (fields : List (String × Json))
deriving Repr

/-- First-match lookup of a key in an object's field list (`undef` if missing). -/
def lookupField : List (String × Json) → String → Json
  | [], _ => Json.undef
  | (k', v) :: rest, k => if k' = k then v else lookupField rest k

/-- JavaScript property access `j.k`: `undef` when the key is missing or the
receiver is not an object.  (Access on `null` throws; that case is modelled
where it occurs, in `onmessage`.) -/
def jsGet (j : Json) (k : String) : Json :=
  match j with
  | Json.obj fields => lookupField fields k
  | _ => Json.undef

/-- JavaScript truthiness. -/
def jsTruthy : Json → Bool
  | Json.undef => false
  | Json.null => false
  | Json.bool b => b
  | Json.num n => decide (n ≠ 0)
  | Json.str s => decide (s ≠ "")
  | Json.obj _ => true

/-- JavaScript optional chaining `base?.k`: `undef` when the base is
`null`/`undefined`, plain property access otherwise. -/
def jsOptGet (base : Json) (k : String) : Json :=
  match base with
  | Json.undef => Json.undef
  | Json.null => Json.undef
  | j => jsGet j k

/-- JavaScript `a || b`. -/
def jsOr (a b : Json) : Json := if jsTruthy a then a else b

/-- JavaScript strict comparison of a value against a string literal. -/
def Json.isStr : Json → String → Bool
  | Json.str a, s => decide (a = s)
  | _, _ => false

/-- Whether a parsed value is the JSON literal `null`. -/
def Json.isNull : Json → Bool
  | Json.null => true
  | _ => false

/-! ### Configuration constants (useWebSocket.ts lines 118-121) -/

def maxReconnectAttempts : Nat := 5
def baseReconnectDelay : Nat := 2000
def heartbeatInterval : Nat := 60000
def pongTimeout : Nat := 15000

/-- `Math.min(baseReconnectDelay * Math.pow(2, attempts), 30000)` (line 231). -/
def reconnectDelay (attempts : Nat) : Nat :=
  min (baseReconnectDelay * 2 ^ attempts) 30000

/-! ### Controller state -/

/-- WebSocket ready states. -/
inductive ReadyState where
  | connecting
  | opened
  | closing
  | closed
deriving Repr, DecidableEq

/-- The hook's `connectionStatus` React state. -/
inductive ConnStatus where
  | connecting
  | connected
  | disconnected
  | reconnecting
deriving Repr, DecidableEq

/-- Which of the optional handler props were supplied to the hook. -/
structure Handlers where
  hasOnMessage : Bool
  hasOnStatus : Bool
deriving Repr, DecidableEq

/-- The mutable state of one `useWebSocket` hook instance.  `sockets` records
the ready state of every `WebSocket` this instance ever constructed, in
creation order; `wsRef` is the index currently held in `wsRef.current`. -/
structure Ctrl where
  sockets : List ReadyState
  wsRef : Option Nat
  reconnectTimeout : Option Nat
  connectionAttempts : Nat
  shouldReconnect : Bool
  heartbeatOn : Bool
  lastPong : Nat
  isConnected : Bool
  connectionStatus : ConnStatus
deriving Repr, DecidableEq

/-- Externally observable actions performed by the hook's callbacks. -/
inductive Effect where
  | newSocket (i : Nat)
  | sendPing
  | closeCall (code : Option Nat)
  | onConnectCb
  | onDisconnectCb
  | onMessageCb (payload : Json)
  | onStatusCb (event : String) (payload : Json) (requestId : Json)
  | onErrorCb
  | logError
  | logWarnTimeout
  | logMaxAttempts
  | logParseError
deriving Repr

/-- `wsRef.current?.readyState`. -/
def wsReadyState (c : Ctrl) : Option ReadyState :=
  c.wsRef.bind fun i => c.sockets[i]?

/-- `ws.close()` / `ws.close(1000, ...)` moves a not-yet-closed socket to
CLOSING; on an already closed socket it is a no-op. -/
def closeTransition : ReadyState → ReadyState
  | ReadyState.closed => ReadyState.closed
  | _ => ReadyState.closing

/-- Apply `closeTransition` to the socket currently held in `wsRef`. -/
def setCurrentClosing (c : Ctrl) : List ReadyState :=
  match c.wsRef with
  | some i =>
    match c.sockets[i]? with
    | some r => c.sockets.set i (closeTransition r)
    | none => c.sockets
  | none => c.sockets

/-! ### Operations (translated from useWebSocket.ts) -/

/-- `connect()` (lines 153-248): no-op when the current socket's ready state is
OPEN, or when `shouldReconnect` has been cleared; otherwise sets the status
(`connecting` on a first attempt, `reconnecting` afterwards), constructs a new
`WebSocket` and stores it in `wsRef`. -/
def connect (c : Ctrl) : Ctrl × List Effect :=
  if wsReadyState c = some ReadyState.opened then (c, [])
  else if !c.shouldReconnect then (c, [])
  else
    let st := if c.connectionAttempts = 0 then ConnStatus.connecting
              else ConnStatus.reconnecting
    let i := c.sockets.length
    ({ c with connectionStatus := st,
              sockets := c.sockets ++ [ReadyState.connecting],
              wsRef := some i },
     [Effect.newSocket i])

/-- `ws.onopen` (lines 170-177).  The socket's transition to OPEN is applied by
`step` before this handler body runs. -/
def onopen (c : Ctrl) (now : Nat) : Ctrl × List Effect :=
  ({ c with isConnected := true,
            connectionStatus := ConnStatus.connected,
            connectionAttempts := 0,
            lastPong := now,
            heartbeatOn := true },
   [Effect.onConnectCb])

/-- `ws.onmessage` (lines 179-209).  `txt` is `event.data`; `parsed` is the
result of `JSON.parse txt` (`none` when parsing throws).  A parsed top-level
`null` makes the subsequent `data.type` access throw, which the surrounding
try/catch turns into the same logged-and-dropped outcome as a parse failure. -/
def onmessage (hs : Handlers) (c : Ctrl) (txt : String) (parsed : Option Json)
    (now : Nat) : Ctrl × List Effect :=
  if txt = "pong" then ({ c with lastPong := now }, [])
  else
    match parsed with
    | none => (c, [Effect.logParseError])
    | some data =>
      if data.isNull then (c, [Effect.logParseError])
      else if (jsGet data "type").isStr "message" && hs.hasOnMessage
              && jsTruthy (jsGet data "data") then
        (c, [Effect.onMessageCb (jsGet data "data")])
      else if (jsGet data "type").isStr "preview_error" && hs.hasOnMessage then
        (c, [Effect.onMessageCb data])
      else if (jsGet data "type").isStr "preview_success" && hs.hasOnMessage then
        (c, [Effect.onMessageCb data])
      else if ((jsGet data "type").isStr "project_status"
               || (jsGet data "type").isStr "status") && hs.hasOnStatus then
        (c, [Effect.onStatusCb "project_status"
              (jsOr (jsGet data "data")
                (Json.obj [("status", jsGet data "status"),
                           ("message", jsGet data "message")]))
              Json.undef])
      else if (jsGet data "type").isStr "act_start" && hs.hasOnStatus then
        (c, [Effect.onStatusCb "act_start" (jsGet data "data")
              (jsOptGet (jsGet data "data") "request_id")])
      else if (jsGet data "type").isStr "chat_start" && hs.hasOnStatus then
        (c, [Effect.onStatusCb "chat_start" (jsGet data "data")
              (jsOptGet (jsGet data "data") "request_id")])
      else if (jsGet data "type").isStr "act_complete" && hs.hasOnStatus then
        (c, [Effect.onStatusCb "act_complete" (jsGet data "data")
              (jsOptGet (jsGet data "data") "request_id")])
      else if (jsGet data "type").isStr "chat_complete" && hs.hasOnStatus then
        (c, [Effect.onStatusCb "chat_complete" (jsGet data "data")
              (jsOptGet (jsGet data "data") "request_id")])
      else (c, [])

/-- `ws.onerror` (lines 211-217): logs the error together with the target URL
and ready state, sets the exposed status to `disconnected`, and surfaces the
error through the `onError` callback.  The socket is not closed. -/
def onerror (c : Ctrl) : Ctrl × List Effect :=
  ({ c with connectionStatus := ConnStatus.disconnected },
   [Effect.logError, Effect.onErrorCb])

/-- `ws.onclose` (lines 219-241).  The socket's transition to CLOSED is applied
by `step` before this handler body runs. -/
def onclose (c : Ctrl) (code : Nat) : Ctrl × List Effect :=
  let c1 := { c with isConnected := false,
                     connectionStatus := ConnStatus.disconnected,
                     heartbeatOn := false }
  if c1.shouldReconnect && code != 1000 then
    let attempts := c1.connectionAttempts + 1
    if attempts < maxReconnectAttempts then
      ({ c1 with connectionAttempts := attempts,
                 connectionStatus := ConnStatus.reconnecting,
                 reconnectTimeout := some (reconnectDelay attempts) },
       [Effect.onDisconnectCb])
    else
      ({ c1 with connectionAttempts := attempts },
       [Effect.onDisconnectCb, Effect.logMaxAttempts])
  else (c1, [Effect.onDisconnectCb])

/-- One tick of the `setInterval` callback installed by `startHeartbeat`
(lines 129-142): when the current socket is OPEN, the staleness check runs
before any probe is sent; a stale connection is closed (no code argument) and
no `ping` goes out, otherwise a `ping` is sent. -/
def heartbeatTick (c : Ctrl) (now : Nat) : Ctrl × List Effect :=
  if wsReadyState c = some ReadyState.opened then
    if now - c.lastPong > heartbeatInterval + pongTimeout then
      ({ c with sockets := setCurrentClosing c },
       [Effect.logWarnTimeout, Effect.closeCall none])
    else (c, [Effect.sendPing])
  else (c, [])

/-- `disconnect()` (lines 250-267): clears `shouldReconnect`, cancels the
pending reconnect timer and the heartbeat timer, closes the held socket with
code 1000, and drops the reference. -/
def disconnect (c : Ctrl) : Ctrl × List Effect :=
  let c1 := { c with shouldReconnect := false,
                     reconnectTimeout := none,
                     heartbeatOn := false }
  match c1.wsRef with
  | some _ =>
    ({ c1 with sockets := setCurrentClosing c1,
               wsRef := none,
               isConnected := false,
               connectionStatus := ConnStatus.disconnected },
     [Effect.closeCall (some 1000)])
  | none =>
    ({ c1 with isConnected := false,
               connectionStatus := ConnStatus.disconnected }, [])

/-! ### Event-step semantics -/

/-- The events a hook instance can experience: its two exported operations,
the transport events of any socket it created (identified by creation index),
the reconnect timer firing, and a heartbeat tick. -/
inductive Event where
  | connectCall
  | disconnectCall
  | openEvt (i : Nat) (now : Nat)
  | messageEvt (txt : String) (parsed : Option Json) (now : Nat)
  | errorEvt
  | closeEvt (i : Nat) (code : Nat)
  | reconnectFire
  | hbTick (now : Nat)

def step (hs : Handlers) (c : Ctrl) (e : Event) : Ctrl × List Effect :=
  match e with
  | Event.connectCall => connect c
  | Event.disconnectCall => disconnect c
  | Event.openEvt i now =>
    if c.sockets[i]? = some ReadyState.connecting then
      onopen { c with sockets := c.sockets.set i ReadyState.opened } now
    else (c, [])
  | Event.messageEvt txt parsed now => onmessage hs c txt parsed now
  | Event.errorEvt => onerror c
  | Event.closeEvt i code =>
    match c.sockets[i]? with
    | some r =>
      if r = ReadyState.closed then (c, [])
      else onclose { c with sockets := c.sockets.set i ReadyState.closed } code
    | none => (c, [])
  | Event.reconnectFire =>
    match c.reconnectTimeout with
    | some _ => connect { c with reconnectTimeout := none }
    | none => (c, [])
  | Event.hbTick now => if c.heartbeatOn then heartbeatTick c now else (c, [])

def run (hs : Handlers) (c : Ctrl) : List Event → Ctrl × List Effect
  | [] => (c, [])
  | e :: rest =>
    let r1 := step hs c e
    let r2 := run hs r1.1 rest
    (r2.1, r1.2 ++ r2.2)

/-- State established by the mount effect (lines 277-285): `shouldReconnect`
set, attempt counter zeroed, `lastPongRef` initialized to `Date.now()`. -/
def initialCtrl (now : Nat) : Ctrl :=
  { sockets := [], wsRef := none, reconnectTimeout := none,
    connectionAttempts := 0, shouldReconnect := true, heartbeatOn := false,
    lastPong := now, isConnected := false,
    connectionStatus := ConnStatus.disconnected }

/-- Hook instance with both optional handlers supplied. -/
def allHandlers : Handlers := ⟨true, true⟩

/-- State of a freshly mounted controller whose first socket opened at `t0`. -/
def openedAt (t0 : Nat) : Ctrl :=
  (run allHandlers (initialCtrl t0) [Event.connectCall, Event.openEvt 0 t0]).1

/-! ### Observation helpers -/

def isNewSocket : Effect → Bool
  | Effect.newSocket _ => true
  | _ => false

def isOnErrorCb : Effect → Bool
  | Effect.onErrorCb => true
  | _ => false

def isLogMaxAttempts : Effect → Bool
  | Effect.logMaxAttempts => true
  | _ => false

/-- No `new WebSocket(...)` construction occurs in the effect list. -/
def noNewSocket (l : List Effect) : Bool := l.all fun e => !isNewSocket e

/-- A socket that is not fully closed. -/
def unclosedP (r : ReadyState) : Bool := decide (r ≠ ReadyState.closed)

/-- Number of sockets of this instance that are not fully closed. -/
def unclosedCount (c : Ctrl) : Nat := c.sockets.countP unclosedP

/-- Every socket this instance ever created is fully closed. -/
def allClosed (c : Ctrl) : Bool := c.sockets.all fun r => decide (r = ReadyState.closed)

/-- Guard on an event: `connect()` (directly or via the reconnect timer) is
invoked only when every previously created socket is fully closed. -/
def guardOK (c : Ctrl) : Event → Bool
  | Event.connectCall => allClosed c
  | Event.reconnectFire => allClosed c
  | _ => true

/-- `guardOK` holds at every point of the trace. -/
def runOK (hs : Handlers) (c : Ctrl) : List Event → Bool
  | [] => true
  | e :: rest => guardOK c e && runOK hs (step hs c e).1 rest

/-- A frame-delivery event whose raw text is not the `pong` sentinel. -/
def isDomainMsg : Event → Bool
  | Event.messageEvt txt _ _ => decide (txt ≠ "pong")
  | _ => false

/-! ### Concrete scenarios -/

/-- A `chat_start` envelope with payload `\x7b"x":1\x7d` and top-level
`requestId` `"r1"`. -/
def chatStartEnv : Json :=
  Json.obj [("type", Json.str "chat_start"),
            ("data", Json.obj [("x", Json.num 1)]),
            ("requestId", Json.str "r1")]

/-- An `act_start` envelope whose `data` carries a `request_id`. -/
def actStartEnv : Json :=
  Json.obj [("type", Json.str "act_start"),
            ("data", Json.obj [("request_id", Json.str "q7"), ("x", Json.num 2)])]

/-- A `message` envelope with no `data` field. -/
def messageNoDataEnv : Json := Json.obj [("type", Json.str "message")]

/-- Mount, then five consecutive abnormal closes with no successful open:
every reconnect timer that gets scheduled fires and the resulting attempt is
closed abnormally again. -/
def fiveFailures : List Event :=
  [Event.connectCall, Event.closeEvt 0 1006, Event.reconnectFire,
   Event.closeEvt 1 1006, Event.reconnectFire, Event.closeEvt 2 1006,
   Event.reconnectFire, Event.closeEvt 3 1006, Event.reconnectFire,
   Event.closeEvt 4 1006]

/-- Two `connect()` calls in a row while the first socket is still in the
CONNECTING handshake, after which both handshakes succeed. -/
def doubleConnect : List Event :=
  [Event.connectCall, Event.connectCall, Event.openEvt 0 5, Event.openEvt 1 5]

/-- Mount, open, abnormal close, reconnect-timer fire. -/
def reconnectTrace : List Event :=
  [Event.connectCall, Event.openEvt 0 5, Event.closeEvt 0 1006,
   Event.reconnectFire]

/-- One delivered domain frame, no `pong`. -/
def domainOnlyTrace : List Event :=
  [Event.messageEvt "frame-d1" (some chatStartEnv) 70000]

/-! ### Helper lemmas -/

theorem openedAt_eq (t0 : Nat) :
    openedAt t0 =
      { sockets := [ReadyState.opened], wsRef := some 0, reconnectTimeout := none,
        connectionAttempts := 0, shouldReconnect := true, heartbeatOn := true,
        lastPong := t0, isConnected := true,
        connectionStatus := ConnStatus.connected } := rfl

/-- Every non-`pong` frame leaves the controller state untouched: dispatch only
invokes handlers. -/
theorem onmessage_state (hs : Handlers) (c : Ctrl) (txt : String)
    (parsed : Option Json) (now : Nat) (hp : txt ≠ "pong") :
    (onmessage hs c txt parsed now).1 = c := by
  unfold onmessage
  rw [if_neg hp]
  cases parsed with
  | none => rfl
  | some data =>
    dsimp only
    repeat' split
    all_goals rfl

theorem onmessage_shouldReconnect (hs : Handlers) (c : Ctrl) (txt : String)
    (parsed : Option Json) (now : Nat) :
    (onmessage hs c txt parsed now).1.shouldReconnect = c.shouldReconnect := by
  by_cases hp : txt = "pong"
  · subst hp; rfl
  · rw [onmessage_state hs c txt parsed now hp]

theorem onmessage_sockets (hs : Handlers) (c : Ctrl) (txt : String)
    (parsed : Option Json) (now : Nat) :
    (onmessage hs c txt parsed now).1.sockets = c.sockets := by
  by_cases hp : txt = "pong"
  · subst hp; rfl
  · rw [onmessage_state hs c txt parsed now hp]

theorem onmessage_noNewSocket (hs : Handlers) (c : Ctrl) (txt : String)
    (parsed : Option Json) (now : Nat) :
    noNewSocket (onmessage hs c txt parsed now).2 = true := by
  unfold onmessage
  repeat' split
  all_goals rfl

theorem onclose_sockets (c : Ctrl) (code : Nat) :
    (onclose c code).1.sockets = c.sockets := by
  simp only [onclose]
  repeat' split
  all_goals rfl

theorem onclose_shouldReconnect (c : Ctrl) (code : Nat) :
    (onclose c code).1.shouldReconnect = c.shouldReconnect := by
  simp only [onclose]
  repeat' split
  all_goals rfl

theorem connect_lastPong (c : Ctrl) : (connect c).1.lastPong = c.lastPong := by
  simp only [connect]
  repeat' split
  all_goals rfl

theorem connect_shouldReconnect (c : Ctrl) :
    (connect c).1.shouldReconnect = c.shouldReconnect := by
  simp only [connect]
  repeat' split
  all_goals rfl

theorem disconnect_state (c : Ctrl) :
    (disconnect c).1.shouldReconnect = false ∧
    (disconnect c).1.reconnectTimeout = none ∧
    (disconnect c).1.heartbeatOn = false := by
  simp only [disconnect]
  repeat' split
  all_goals exact ⟨rfl, rfl, rfl⟩

theorem disconnect_lastPong (c : Ctrl) :
    (disconnect c).1.lastPong = c.lastPong := by
  simp only [disconnect]
  repeat' split
  all_goals rfl

theorem heartbeatTick_lastPong (c : Ctrl) (now : Nat) :
    (heartbeatTick c now).1.lastPong = c.lastPong := by
  simp only [heartbeatTick]
  repeat' split
  all_goals rfl

theorem onclose_lastPong (c : Ctrl) (code : Nat) :
    (onclose c code).1.lastPong = c.lastPong := by
  simp only [onclose]
  repeat' split
  all_goals rfl

theorem countP_set_le {α : Type} (p : α → Bool) (v : α) (hv : p v = false) :
    ∀ (l : List α) (i : Nat), (l.set i v).countP p ≤ l.countP p := by
  intro l
  induction l with
  | nil => intro i; simp [List.set]
  | cons a l ih =>
    intro i
    cases i with
    | zero => simp [List.set, List.countP_cons, hv]
    | succ j =>
      simp only [List.set, List.countP_cons]
      exact Nat.add_le_add_right (ih j) _

theorem countP_set_same {α : Type} (p : α → Bool) :
    ∀ (l : List α) (i : Nat) (v : α), (∀ a, l[i]? = some a → p a = p v) →
      (l.set i v).countP p = l.countP p := by
  intro l
  induction l with
  | nil => intro i v _; simp [List.set]
  | cons a l ih =>
    intro i v hv
    cases i with
    | zero =>
      have ha : p a = p v := hv a (by simp)
      simp [List.set, List.countP_cons, ha]
    | succ j =>
      simp only [List.set, List.countP_cons]
      rw [ih j v (fun b hb => hv b (by simpa using hb))]

theorem unclosedP_closeTransition (r : ReadyState) :
    unclosedP (closeTransition r) = unclosedP r := by
  cases r <;> rfl

theorem setCurrentClosing_count (c : Ctrl) :
    (setCurrentClosing c).countP unclosedP = c.sockets.countP unclosedP := by
  unfold setCurrentClosing
  split
  · split
    · rename_i r hg
      apply countP_set_same
      intro a ha
      rw [hg] at ha
      cases ha
      exact (unclosedP_closeTransition r).symm
    · rfl
  · rfl

theorem allClosed_count (c : Ctrl) (h : allClosed c = true) : unclosedCount c = 0 := by
  unfold allClosed at h
  unfold unclosedCount
  rw [List.countP_eq_zero]
  intro a ha
  have := List.all_eq_true.mp h a ha
  simp only [unclosedP]
  simpa using this

theorem connect_unclosed (c : Ctrl) :
    unclosedCount (connect c).1 ≤ unclosedCount c + 1 := by
  simp only [connect, unclosedCount]
  repeat' split
  all_goals simp [List.countP_append, List.countP_cons, unclosedP]

theorem connect_no_socket_of_cleared (c : Ctrl) (h : c.shouldReconnect = false) :
    connect c = (c, []) := by
  simp only [connect, h]
  split <;> rfl

/-- Once `shouldReconnect` is cleared, no event makes the controller construct
a socket, and no event sets `shouldReconnect` again. -/
theorem step_no_reconnect (hs : Handlers) (c : Ctrl) (e : Event)
    (h : c.shouldReconnect = false) :
    noNewSocket (step hs c e).2 = true ∧
    (step hs c e).1.shouldReconnect = false := by
  cases e with
  | connectCall =>
    simp only [step, connect_no_socket_of_cleared c h]
    exact ⟨rfl, h⟩
  | disconnectCall =>
    refine ⟨?_, (disconnect_state c).1⟩
    simp only [step, disconnect]
    repeat' split
    all_goals rfl
  | openEvt i now =>
    simp only [step]
    split
    · exact ⟨rfl, h⟩
    · exact ⟨rfl, h⟩
  | messageEvt txt parsed now =>
    exact ⟨onmessage_noNewSocket hs c txt parsed now,
           (onmessage_shouldReconnect hs c txt parsed now).trans h⟩
  | errorEvt => exact ⟨rfl, h⟩
  | closeEvt i code =>
    simp only [step]
    split
    · split
      · exact ⟨rfl, h⟩
      · constructor
        · simp only [onclose]
          repeat' split
          all_goals rfl
        · rw [onclose_shouldReconnect]
          exact h
    · exact ⟨rfl, h⟩
  | reconnectFire =>
    simp only [step]
    split
    · rw [connect_no_socket_of_cleared { c with reconnectTimeout := none } h]
      exact ⟨rfl, h⟩
    · exact ⟨rfl, h⟩
  | hbTick now =>
    simp only [step]
    split
    · constructor
      · simp only [heartbeatTick]
        repeat' split
        all_goals rfl
      · simp only [heartbeatTick]
        repeat' split
        all_goals exact h
    · exact ⟨rfl, h⟩

theorem run_no_reconnect (hs : Handlers) (evs : List Event) : ∀ c : Ctrl,
    c.shouldReconnect = false → noNewSocket (run hs c evs).2 = true := by
  induction evs with
  | nil => intro c _; rfl
  | cons e rest ih =>
    intro c h
    have hstep := step_no_reconnect hs c e h
    simp only [run, noNewSocket, List.all_append, Bool.and_eq_true]
    refine ⟨hstep.1, ?_⟩
    have := ih (step hs c e).1 hstep.2
    simpa [noNewSocket] using this

/-- Any single guarded event preserves the at-most-one-unclosed-socket bound. -/
theorem step_unclosed (hs : Handlers) (c : Ctrl) (e : Event)
    (h1 : unclosedCount c ≤ 1) (hg : guardOK c e = true) :
    unclosedCount (step hs c e).1 ≤ 1 := by
  cases e with
  | connectCall =>
    have h0 : unclosedCount c = 0 := allClosed_count c hg
    have h2 := connect_unclosed c
    simp only [step]
    omega
  | disconnectCall =>
    simp only [step, disconnect, unclosedCount]
    split
    · rw [show (setCurrentClosing
          { c with shouldReconnect := false, reconnectTimeout := none,
                   heartbeatOn := false }).countP unclosedP
            = c.sockets.countP unclosedP from setCurrentClosing_count _]
      exact h1
    · exact h1
  | openEvt i now =>
    simp only [step]
    split
    · rename_i hi
      simp only [onopen, unclosedCount]
      rw [countP_set_same unclosedP c.sockets i ReadyState.opened
          (by intro a ha; rw [hi] at ha; cases ha; rfl)]
      exact h1
    · exact h1
  | messageEvt txt parsed now =>
    simp only [step]
    unfold unclosedCount
    rw [onmessage_sockets]
    exact h1
  | errorEvt => exact h1
  | closeEvt i code =>
    simp only [step]
    split
    · split
      · exact h1
      · unfold unclosedCount
        rw [onclose_sockets]
        have := countP_set_le unclosedP ReadyState.closed (by rfl) c.sockets i
        unfold unclosedCount at h1
        simp only
        omega
    · exact h1
  | reconnectFire =>
    simp only [step]
    split
    · have h0 : unclosedCount c = 0 := allClosed_count c hg
      have h2 := connect_unclosed { c with reconnectTimeout := none }
      have h3 : unclosedCount { c with reconnectTimeout := none } = unclosedCount c := rfl
      omega
    · exact h1
  | hbTick now =>
    simp only [step]
    split
    · simp only [heartbeatTick]
      split
      · split
        · unfold unclosedCount
          simp only
          rw [setCurrentClosing_count]
          exact h1
        · exact h1
      · exact h1
    · exact h1

theorem runOK_unclosed (hs : Handlers) (evs : List Event) : ∀ c : Ctrl,
    unclosedCount c ≤ 1 → runOK hs c evs = true →
    unclosedCount (run hs c evs).1 ≤ 1 := by
  induction evs with
  | nil => intro c h _; exact h
  | cons e rest ih =>
    intro c h hok
    simp only [runOK, Bool.and_eq_true] at hok
    have hstep := step_unclosed hs c e h hok.1
    simpa [run] using ih (step hs c e).1 hstep hok.2

/-- A trace consisting only of non-`pong` frame deliveries leaves the whole
controller state unchanged. -/
theorem run_domain_msgs_state (hs : Handlers) (evs : List Event) : ∀ c : Ctrl,
    evs.all isDomainMsg = true → (run hs c evs).1 = c := by
  induction evs with
  | nil => intro c _; rfl
  | cons e rest ih =>
    intro c hall
    simp only [List.all_cons, Bool.and_eq_true] at hall
    cases e with
    | messageEvt txt parsed now =>
      have hp : txt ≠ "pong" := by
        have := hall.1
        simp only [isDomainMsg] at this
        exact of_decide_eq_true this
      simp only [run, step]
      rw [onmessage_state hs c txt parsed now hp]
      exact ih c hall.2
    | connectCall => simp [isDomainMsg] at hall
    | disconnectCall => simp [isDomainMsg] at hall
    | openEvt i now => simp [isDomainMsg] at hall
    | errorEvt => simp [isDomainMsg] at hall
    | closeEvt i code => simp [isDomainMsg] at hall
    | reconnectFire => simp [isDomainMsg] at hall
    | hbTick now => simp [isDomainMsg] at hall

/-! ### Claims -/

/-- Claim C1: with no `pong` ever received after an open at `t0`, each
heartbeat tick first checks staleness: past `heartbeatInterval + pongTimeout`
it closes the connection and sends no probe, otherwise it sends `ping`.  The
first tick (at `t0 + heartbeatInterval`) still probes, the second tick (at
`t0 + 2 * heartbeatInterval`) closes, and that closing instant lies between
`heartbeatInterval + pongTimeout` and `2 * heartbeatInterval + pongTimeout`
after open. -/
theorem heartbeat_no_pong_close_window (t0 : Nat) :
    (∀ now : Nat,
      (step allHandlers (openedAt t0) (Event.hbTick now)).2 =
        if now - t0 > heartbeatInterval + pongTimeout then
          [Effect.logWarnTimeout, Effect.closeCall none]
        else [Effect.sendPing]) ∧
    (step allHandlers (openedAt t0) (Event.hbTick (t0 + heartbeatInterval))).2 =
      [Effect.sendPing] ∧
    (step allHandlers (openedAt t0)
        (Event.hbTick (t0 + 2 * heartbeatInterval))).2 =
      [Effect.logWarnTimeout, Effect.closeCall none] ∧
    t0 + (heartbeatInterval + pongTimeout) ≤ t0 + 2 * heartbeatInterval ∧
    t0 + 2 * heartbeatInterval ≤ t0 + (2 * heartbeatInterval + pongTimeout) := by
  refine ⟨?_, ?_, ?_, ?_, ?_⟩
  · intro now
    simp only [step, openedAt_eq, heartbeatTick, wsReadyState, Option.bind,
      heartbeatInterval, pongTimeout]
    norm_num
    split <;> rfl
  · simp only [step, openedAt_eq, heartbeatTick, wsReadyState, Option.bind,
      heartbeatInterval, pongTimeout]
    norm_num
  · simp only [step, openedAt_eq, heartbeatTick, wsReadyState, Option.bind,
      heartbeatInterval, pongTimeout]
    norm_num
  · simp only [heartbeatInterval, pongTimeout]; omega
  · simp only [heartbeatInterval, pongTimeout]; omega

/-- Claim C6: the open handler sets the liveness timestamp to the opening
instant, so the first heartbeat tick, `heartbeatInterval` after the heartbeat
started, observes an elapsed time of at most `heartbeatInterval`, which is
below `heartbeatInterval + pongTimeout`; the tick therefore sends a probe and
does not close the connection. -/
theorem first_tick_no_false_timeout (t0 now0 : Nat) :
    (onopen (initialCtrl t0) now0).1.lastPong = now0 ∧
    (openedAt t0).lastPong = t0 ∧
    (t0 + heartbeatInterval) - (openedAt t0).lastPong ≤ heartbeatInterval ∧
    heartbeatInterval < heartbeatInterval + pongTimeout ∧
    (step allHandlers (openedAt t0) (Event.hbTick (t0 + heartbeatInterval))).2 =
      [Effect.sendPing] := by
  refine ⟨rfl, rfl, ?_, by simp [heartbeatInterval, pongTimeout], ?_⟩
  · simp only [openedAt_eq]
    omega
  · simp only [step, openedAt_eq, heartbeatTick, wsReadyState, Option.bind,
      heartbeatInterval, pongTimeout]
    norm_num

/-- Claim C3: whenever the close handler actually schedules a retry after an
abnormal close that raises the attempt counter to `n` (1 ≤ n ≤ 5), the
scheduled delay equals `min (baseReconnectDelay * 2 ^ n) 30000`, and this
delay is non-decreasing in `n`. -/
theorem backoff_delay (c : Ctrl) (code n d : Nat)
    (h1 : 1 ≤ n) (h2 : n ≤ 5)
    (hsr : c.shouldReconnect = true)
    (hatt : c.connectionAttempts + 1 = n)
    (hnone : c.reconnectTimeout = none)
    (hd : (onclose c code).1.reconnectTimeout = some d) :
    d = min (baseReconnectDelay * 2 ^ n) 30000 ∧
    ∀ m, n ≤ m → reconnectDelay n ≤ reconnectDelay m := by
  constructor
  · simp only [onclose] at hd
    split at hd
    · rw [hatt] at hd
      split at hd
      · simp only at hd
        injection hd with h
        rw [← h]
        rfl
      · simp [hnone] at hd
    · simp [hnone] at hd
  · intro m hm
    unfold reconnectDelay
    exact min_le_min
      (Nat.mul_le_mul_left _ (Nat.pow_le_pow_right (by norm_num) hm))
      (le_refl _)

theorem backoff_delay_witness :
    4000 = min (baseReconnectDelay * 2 ^ 1) 30000 ∧
    ∀ m, 1 ≤ m → reconnectDelay 1 ≤ reconnectDelay m :=
  backoff_delay (initialCtrl 0) 1006 1 4000 (by decide) (by decide) rfl rfl rfl
    (by decide)

/-- Claim C8 (amended): on a transport error event the controller logs the
error with the target address and ready state, sets the exposed status to
`disconnected`, and surfaces the error through the user-facing `onError`
callback; it does not close the socket, touch the timers, or alter any other
state — the subsequent close event drives reconnection. -/
theorem transport_error_behavior (c : Ctrl) :
    (onerror c).1.sockets = c.sockets ∧
    (onerror c).1.wsRef = c.wsRef ∧
    (onerror c).1.isConnected = c.isConnected ∧
    (onerror c).1.reconnectTimeout = c.reconnectTimeout ∧
    (onerror c).1.heartbeatOn = c.heartbeatOn ∧
    (onerror c).1.shouldReconnect = c.shouldReconnect ∧
    (onerror c).1.lastPong = c.lastPong ∧
    (onerror c).1.connectionStatus = ConnStatus.disconnected ∧
    (onerror c).2 = [Effect.logError, Effect.onErrorCb] :=
  ⟨rfl, rfl, rfl, rfl, rfl, rfl, rfl, rfl, rfl⟩

/-- Counterexample to claim C8 as stated: on a connected controller the error
handler does change the exposed connection status (connected becomes
disconnected) and does invoke the user-facing error callback. -/
theorem transport_error_cex :
    (openedAt 0).connectionStatus = ConnStatus.connected ∧
    (onerror (openedAt 0)).1.connectionStatus ≠ (openedAt 0).connectionStatus ∧
    (onerror (openedAt 0)).2.countP isOnErrorCb = 1 :=
  ⟨rfl, by decide, rfl⟩

/-- Claim C2 (amended): an inbound envelope whose `type` is `chat_start`,
`act_start`, `act_complete` or `chat_complete` invokes only the status handler,
with that event name, the envelope's `data` field as payload, and — as the
correlation identifier — the `request_id` property of the `data` field
(`undefined` when `data` has no such property), not the envelope's top-level
`requestId`. -/
theorem dispatch_start_complete_events (env : Json) (c : Ctrl) (txt t : String)
    (now : Nat)
    (ht : t = "chat_start" ∨ t = "act_start" ∨ t = "act_complete"
          ∨ t = "chat_complete")
    (htype : jsGet env "type" = Json.str t) (hp : txt ≠ "pong") :
    (onmessage allHandlers c txt (some env) now).2 =
      [Effect.onStatusCb t (jsGet env "data")
        (jsOptGet (jsGet env "data") "request_id")] := by
  have hnn : env.isNull = false := by
    cases env <;> first | rfl | (simp [jsGet] at htype)
  rcases ht with h | h | h | h <;> subst h <;>
    simp [onmessage, hp, hnn, htype, Json.isStr, allHandlers]

theorem dispatch_start_complete_events_witness :
    (onmessage allHandlers (initialCtrl 0) "frame-act-start" (some actStartEnv)
        0).2 =
      [Effect.onStatusCb "act_start" (jsGet actStartEnv "data")
        (jsOptGet (jsGet actStartEnv "data") "request_id")] :=
  dispatch_start_complete_events actStartEnv (initialCtrl 0) "frame-act-start"
    "act_start" 0 (Or.inr (Or.inl rfl)) rfl (by decide)

/-- Counterexample to claim C2 as stated: for the envelope
`\x7b"type":"chat_start","data":\x7b"x":1\x7d,"requestId":"r1"\x7d` the
dispatcher passes `undefined` as the correlation identifier (it reads
`data.data?.request_id`, which is absent), not the top-level `"r1"`. -/
theorem chat_start_requestId_cex :
    (onmessage allHandlers (initialCtrl 0) "frame-chat-start" (some chatStartEnv)
        0).2 =
      [Effect.onStatusCb "chat_start" (Json.obj [("x", Json.num 1)])
        Json.undef] ∧
    (onmessage allHandlers (initialCtrl 0) "frame-chat-start" (some chatStartEnv)
        0).2 ≠
      [Effect.onStatusCb "chat_start" (Json.obj [("x", Json.num 1)])
        (Json.str "r1")] := by
  refine ⟨rfl, ?_⟩
  intro h
  rw [show (onmessage allHandlers (initialCtrl 0) "frame-chat-start"
      (some chatStartEnv) 0).2 =
      [Effect.onStatusCb "chat_start" (Json.obj [("x", Json.num 1)])
        Json.undef] from rfl] at h
  simp at h

/-- Claim C10: a `message` envelope reaches the content handler exactly when
its `data` field is truthy, and then with exactly that `data` value; with
`data` absent, null or otherwise falsy the frame is dropped and neither
handler is invoked. -/
theorem message_data_gate (c : Ctrl) (env : Json) (txt : String) (now : Nat)
    (hp : txt ≠ "pong") (htype : jsGet env "type" = Json.str "message") :
    (onmessage allHandlers c txt (some env) now).2 =
      (if jsTruthy (jsGet env "data") then
        [Effect.onMessageCb (jsGet env "data")]
      else []) := by
  have hnn : env.isNull = false := by
    cases env <;> first | rfl | (simp [jsGet] at htype)
  by_cases hd : jsTruthy (jsGet env "data") <;>
    simp [onmessage, hp, hnn, htype, Json.isStr, allHandlers, hd]

theorem message_data_gate_witness :
    (onmessage allHandlers (initialCtrl 0) "frame-message"
        (some messageNoDataEnv) 0).2 =
      (if jsTruthy (jsGet messageNoDataEnv "data") then
        [Effect.onMessageCb (jsGet messageNoDataEnv "data")]
      else []) :=
  message_data_gate (initialCtrl 0) messageNoDataEnv "frame-message" 0
    (by decide) rfl

/-- Claim C4: `disconnect()` clears `shouldReconnect`, cancels the pending
reconnect timer and the heartbeat timer, and closes the held socket with code
1000; afterwards no sequence of events ever constructs another socket.
Moreover the close handler never schedules a reconnect for a close event with
code 1000, whatever `shouldReconnect` is. -/
theorem disconnect_is_terminal (hs : Handlers) (c : Ctrl) (evs : List Event) :
    (disconnect c).1.shouldReconnect = false ∧
    (disconnect c).1.reconnectTimeout = none ∧
    (disconnect c).1.heartbeatOn = false ∧
    (disconnect c).2 =
      (if c.wsRef.isSome then [Effect.closeCall (some 1000)] else []) ∧
    noNewSocket (run hs (disconnect c).1 evs).2 = true ∧
    (∀ c' : Ctrl, (onclose c' 1000).1.reconnectTimeout = c'.reconnectTimeout ∧
      (onclose c' 1000).1.connectionAttempts = c'.connectionAttempts) := by
  refine ⟨(disconnect_state c).1, (disconnect_state c).2.1, (disconnect_state c).2.2,
    ?_, run_no_reconnect hs evs (disconnect c).1 (disconnect_state c).1, ?_⟩
  · simp only [disconnect]
    split
    · rename_i hw
      simp [hw, Option.isSome]
    · rename_i hw
      simp [hw, Option.isSome]
  · intro c'
    constructor
    · simp only [onclose]
      norm_num
    · simp only [onclose]
      norm_num

/-- Counterexample to claim C5 as stated: across five consecutive abnormal
closes with no intervening open, the session's `onError` callback is never
invoked (`countP isOnErrorCb = 0`), so the exhaustion is not "reported upward
via the session's error callback exactly once". -/
theorem exhaustion_error_callback_cex :
    (run allHandlers (initialCtrl 0) fiveFailures).2.countP isOnErrorCb = 0 ∧
    ¬ (run allHandlers (initialCtrl 0) fiveFailures).2.countP isOnErrorCb = 1 :=
  ⟨by decide, by decide⟩

/-- Claim C5 (amended): after 5 consecutive abnormal closes with no
intervening successful open, the controller schedules no sixth attempt
(exactly five sockets are ever constructed, the reconnect timer is empty, and
a further timer fire does nothing), settles into `disconnected` with the
attempt counter at the cap, and reports exhaustion by logging the
max-attempts-reached error exactly once; the session's error callback is not
invoked. -/
theorem exhaustion_behavior :
    (run allHandlers (initialCtrl 0) fiveFailures).1.connectionStatus =
      ConnStatus.disconnected ∧
    (run allHandlers (initialCtrl 0) fiveFailures).1.connectionAttempts = 5 ∧
    (run allHandlers (initialCtrl 0) fiveFailures).1.reconnectTimeout = none ∧
    (run allHandlers (initialCtrl 0) fiveFailures).2.countP isNewSocket = 5 ∧
    (run allHandlers (initialCtrl 0) fiveFailures).2.countP isLogMaxAttempts
      = 1 ∧
    (step allHandlers (run allHandlers (initialCtrl 0) fiveFailures).1
        Event.reconnectFire).2 = [] :=
  ⟨by decide, by decide, by decide, by decide, by decide, rfl⟩

/-- Counterexample to claim C7 as stated: calling `connect()` twice while the
first socket is still in its CONNECTING handshake creates a second socket (the
guard only checks for an OPEN ready state), and both handshakes can then
succeed, leaving two simultaneously open sockets owned by one controller. -/
theorem overlapping_sockets_cex :
    (run allHandlers (initialCtrl 0) doubleConnect).1.sockets =
      [ReadyState.opened, ReadyState.opened] ∧
    ¬ unclosedCount (run allHandlers (initialCtrl 0) doubleConnect).1 ≤ 1 :=
  ⟨by decide, by decide⟩

/-- Claim C7 (amended): `connect()` declines to create a socket only when the
current socket is OPEN (or teardown cleared `shouldReconnect`), so invoking it
during a handshake creates overlapping sockets; the at-most-one-unclosed-
socket invariant holds exactly for the traces in which `connect()` — called
directly or fired by the reconnect timer — only runs when every previously
created socket is fully closed, as on the automatic reconnect path where
`connect()` runs only after the previous socket's close event. -/
theorem single_unclosed_socket (hs : Handlers) (c : Ctrl) (evs : List Event)
    (h1 : unclosedCount c ≤ 1) (h2 : runOK hs c evs = true) :
    unclosedCount (run hs c evs).1 ≤ 1 :=
  runOK_unclosed hs evs c h1 h2

theorem single_unclosed_socket_witness :
    unclosedCount (run allHandlers (initialCtrl 0) reconnectTrace).1 ≤ 1 :=
  single_unclosed_socket allHandlers (initialCtrl 0) reconnectTrace
    (by decide) (by decide)

/-- Claim C9: the liveness timestamp is written in exactly two places — the
open handler (set to the opening instant) and receipt of the raw `pong`
sentinel frame; every other operation, and in particular the dispatch of any
parsed domain envelope, leaves it unchanged.  Consequently a connection that
delivers only domain frames is closed as dead by the heartbeat tick at
`t0 + 2 * heartbeatInterval`, whose elapsed time since the last update exceeds
`heartbeatInterval + pongTimeout`. -/
theorem liveness_update_places (hs : Handlers) (c : Ctrl) (txt : String)
    (parsed parsed' : Option Json) (now code t0 : Nat) (evs : List Event)
    (hp : txt ≠ "pong") (hevs : evs.all isDomainMsg = true) :
    (onmessage hs c txt parsed now).1.lastPong = c.lastPong ∧
    (onmessage hs c "pong" parsed' now).1.lastPong = now ∧
    (onopen c now).1.lastPong = now ∧
    (connect c).1.lastPong = c.lastPong ∧
    (disconnect c).1.lastPong = c.lastPong ∧
    (onerror c).1.lastPong = c.lastPong ∧
    (onclose c code).1.lastPong = c.lastPong ∧
    (heartbeatTick c now).1.lastPong = c.lastPong ∧
    (run hs (openedAt t0) evs).1.lastPong = t0 ∧
    (step hs (run hs (openedAt t0) evs).1
        (Event.hbTick (t0 + 2 * heartbeatInterval))).2 =
      [Effect.logWarnTimeout, Effect.closeCall none] := by
  have hrun : (run hs (openedAt t0) evs).1 = openedAt t0 :=
    run_domain_msgs_state hs evs (openedAt t0) hevs
  refine ⟨?_, rfl, rfl, connect_lastPong c, disconnect_lastPong c, rfl,
    onclose_lastPong c code, heartbeatTick_lastPong c now, ?_, ?_⟩
  · rw [onmessage_state hs c txt parsed now hp]
  · rw [hrun, openedAt_eq]
  · rw [hrun]
    simp only [step, openedAt_eq, heartbeatTick, wsReadyState, Option.bind,
      heartbeatInterval, pongTimeout]
    norm_num

theorem liveness_update_places_witness :
    (onmessage allHandlers (initialCtrl 0) "frame-status" (some chatStartEnv)
        9).1.lastPong = (initialCtrl 0).lastPong ∧
    (onmessage allHandlers (initialCtrl 0) "pong" none 9).1.lastPong = 9 ∧
    (onopen (initialCtrl 0) 9).1.lastPong = 9 ∧
    (connect (initialCtrl 0)).1.lastPong = (initialCtrl 0).lastPong ∧
    (disconnect (initialCtrl 0)).1.lastPong = (initialCtrl 0).lastPong ∧
    (onerror (initialCtrl 0)).1.lastPong = (initialCtrl 0).lastPong ∧
    (onclose (initialCtrl 0) 1006).1.lastPong = (initialCtrl 0).lastPong ∧
    (heartbeatTick (initialCtrl 0) 9).1.lastPong = (initialCtrl 0).lastPong ∧
    (run allHandlers (openedAt 0) domainOnlyTrace).1.lastPong = 0 ∧
    (step allHandlers (run allHandlers (openedAt 0) domainOnlyTrace).1
        (Event.hbTick (0 + 2 * heartbeatInterval))).2 =
      [Effect.logWarnTimeout, Effect.closeCall none] :=
  liveness_update_places allHandlers (initialCtrl 0) "frame-status"
    (some chatStartEnv) none 9 1006 0 domainOnlyTrace (by decide) (by decide)

end LampCode
